import Mathlib

/-!
Shallow embedding of the authentication/session core of the kitab app:
the session classification and navigation guard of src/app/_layout.tsx
(AuthNavigationProvider), the auth state handler and username creation of
src/contexts/AuthContext.tsx (AuthProvider, checkUsernameExists,
createUsername, signInWithGoogle, signInWithApple), and the
profile-creation screen of src/app/auth/profile-creation.tsx
(handleSubmit, handleUsernameChange, debouncedCheckUsername).
-/

namespace Kitab

/-- JS truthiness of an optional string field: undefined, null and the
empty string are falsy, every other string is truthy.  The guard in
AuthNavigationProvider tests fields with the JS negation operator, so the
embedding must treat the empty string like a missing field. -/
def truthy : Option String → Bool
  | none => false
  | some s => !(s == "")

/-- The user value published by AuthProvider (AuthContext.tsx): the
Firebase user merged with the username field read from the users
collection.  Only the fields the guard and the screens read are kept:
uid, displayName, avatar and username.  FirebaseAuthTypes.User has no
avatar property, so avatar can only come from an explicit assignment in
the provider. -/
structure User where
  uid : String
  displayName : Option String
  avatar : Option String
  username : Option String
deriving Repr, DecidableEq

/-- Firebase user as delivered by onAuthStateChanged: the fields of it
that the handler copies into the published user. -/
structure FirebaseUser where
  uid : String
  displayName : Option String
deriving Repr, DecidableEq

/-- The session taxonomy of the spec (section 3). -/
inductive Session
  | loading
  | signed_out
  | signed_in_incomplete (uid : String)
  | signed_in_complete (uid : String)
deriving Repr, DecidableEq

/-- Session classification read off the branch structure of
AuthNavigationProvider (_layout.tsx lines 34 to 50): loading wins, a null
user is signed out, a user failing the test
`!user.displayName || !user.avatar` is incomplete, otherwise complete.
ProfileCreationScreen applies the same test (`user.displayName &&
user.avatar`) at profile-creation.tsx lines 43 to 53. -/
def classifySession (loading : Bool) (user : Option User) : Session :=
  if loading then Session.loading
  else
    match user with
    | none => Session.signed_out
    | some u =>
      if !truthy u.displayName || !truthy u.avatar then
        Session.signed_in_incomplete u.uid
      else
        Session.signed_in_complete u.uid

/-- The three redirect targets the guard can issue:
router.replace paths /auth/login, /auth/profile-creation and /(tabs). -/
inductive Redirect
  | toLogin
  | toProfileCreation
  | toHome
deriving Repr, DecidableEq

/-- The guard effect of AuthNavigationProvider (_layout.tsx lines 27 to
51) as a decision function.  loading and navReady model the early return
`if (loading || !rootNavigationState?.key) return`; segments is the
expo-router segment list, with `inAuthGroup = segments[0] === 'auth'` and
`currentRoute = segments.join('/')`. -/
def navDecide (loading navReady : Bool) (user : Option User)
    (segments : List String) : Option Redirect :=
  if loading || !navReady then none
  else
    match user with
    | none =>
      if segments.head? = some "auth" then none else some Redirect.toLogin
    | some u =>
      if !truthy u.displayName || !truthy u.avatar then
        if String.intercalate "/" segments ≠ "auth/profile-creation" then
          some Redirect.toProfileCreation
        else none
      else
        if segments.head? = some "auth" then some Redirect.toHome else none

/-- Modelled from the spec: the decision table of section 4.4, stated on
the Session taxonomy, for comparison with navDecide. -/
def specDecide : Session → List String → Option Redirect
  | Session.loading, _ => none
  | Session.signed_out, segments =>
    if segments.head? = some "auth" then none else some Redirect.toLogin
  | Session.signed_in_incomplete _, segments =>
    if String.intercalate "/" segments = "auth/profile-creation" then none
    else some Redirect.toProfileCreation
  | Session.signed_in_complete _, segments =>
    if segments.head? = some "auth" then some Redirect.toHome else none

/-- The route-segment list a redirect lands on after router.replace. -/
def redirectSegments : Redirect → List String
  | Redirect.toLogin => ["auth", "login"]
  | Redirect.toProfileCreation => ["auth", "profile-creation"]
  | Redirect.toHome => ["(tabs)"]

/-- One observable state update of the onAuthStateChanged handler of
AuthProvider (AuthContext.tsx lines 38 to 63).  The handler for a null
event calls setUser(null) with no await before it; the handler for a
non-null firebaseUser awaits the Firestore get of users/{uid} and only
then calls setUser, so its update lands whenever that fetch resolves.
fetched = some d means the get succeeded and d is `userData?.username`;
fetched = none means the get threw and the catch runs
setUser(firebaseUser), which carries no username field. -/
inductive PublishStep
  | authNull
  | fetchResolved (fu : FirebaseUser) (fetched : Option (Option String))
  | usernameCreated (uname : String)
deriving Repr, DecidableEq

/-- Effect of one PublishStep on the published user state.  fetchResolved
builds `{...firebaseUser, username: userData?.username}`: neither the
spread nor the merge assigns avatar, so avatar is none.  usernameCreated
is the setUser updater at the end of a successful createUsername, which
copies the current user and sets only username. -/
def applyPublish : Option User → PublishStep → Option User
  | _, PublishStep.authNull => none
  | _, PublishStep.fetchResolved fu fetched =>
    some { uid := fu.uid, displayName := fu.displayName, avatar := none,
           username := fetched.bind id }
  | cur, PublishStep.usernameCreated uname =>
    cur.map fun c => { c with username := some uname }

/-- The published user after a sequence of handler updates, from the
initial useState(null). -/
def runPublish (steps : List PublishStep) : Option User :=
  steps.foldl applyPublish none

/-- Firestore contents and fault model relevant to createUsername:
usernames maps a reservation doc id (lowercased username) to its uid
field, userdocs maps users/{uid} to its username field.  failingReads
lists reservation doc ids whose get() rejects; failingWrites lists
reservation doc ids whose batch commit rejects. -/
structure Store where
  usernames : List (String × String)
  userdocs : List (String × String)
  failingReads : List String
  failingWrites : List String
deriving Repr, DecidableEq

/-- Read a document field from an association list. -/
def lookupDoc (docs : List (String × String)) (k : String) : Option String :=
  (docs.find? fun p => p.1 == k).map fun p => p.2

/-- Write a document field: a plain set, overwriting any existing value
(Firestore batch.set semantics, not create-if-absent). -/
def setDoc (docs : List (String × String)) (k v : String) :
    List (String × String) :=
  (k, v) :: docs.filter fun p => !(p.1 == k)

/-- Lowercasing as applied by `username.toLowerCase()`, written on the
character list of the string. -/
def jsToLower (s : String) : String := String.mk (s.toList.map Char.toLower)

/-- checkUsernameExists (AuthContext.tsx lines 235 to 247): reads the
reservation doc for the lowercased username and returns snapshot.exists;
the catch logs the error and returns false, so a failed read reports the
username as available. -/
def checkUsernameExists (st : Store) (username : String) : Bool :=
  let key := jsToLower username
  if key ∈ st.failingReads then false
  else (lookupDoc st.usernames key).isSome

/-- Program counter of one createUsername call (AuthContext.tsx lines 249
to 287): before the existence check, after it with its result, or done
with the returned boolean. -/
inductive CreatePc
  | start
  | checked (ex : Bool)
  | done (ok : Bool)
deriving Repr, DecidableEq

/-- One in-flight createUsername(username) call by a signed-in or
signed-out client, together with the alert it has shown. -/
structure CreateCall where
  uid : String
  username : String
  hasUser : Bool
  pc : CreatePc
  alert : Option String
deriving Repr, DecidableEq

/-- One atomic step of createUsername.  At start, `if (!user) return
false`; otherwise the await of checkUsernameExists is the suspension
point, so the read is one step.  A positive check alerts Username taken
and returns false.  A negative check runs the batch: set username on
users/{uid} with merge, and a plain set of the reservation doc; commit
failure is the catch branch, which alerts and returns false. -/
def createStep (st : Store) (c : CreateCall) : Store × CreateCall :=
  match c.pc with
  | CreatePc.start =>
    if !c.hasUser then (st, { c with pc := CreatePc.done false })
    else (st, { c with pc := CreatePc.checked (checkUsernameExists st c.username) })
  | CreatePc.checked true =>
    (st, { c with pc := CreatePc.done false, alert := some "Username taken" })
  | CreatePc.checked false =>
    let key := jsToLower c.username
    if key ∈ st.failingWrites then
      (st, { c with pc := CreatePc.done false,
                    alert := some "Failed to create username. Please try again." })
    else
      ({ st with usernames := setDoc st.usernames key c.uid,
                 userdocs := setDoc st.userdocs c.uid c.username },
       { c with pc := CreatePc.done true })
  | CreatePc.done _ => (st, c)

/-- A full createUsername call run without interleaving: three steps take
the call from start to done in every branch. -/
def runCreateUsername (st : Store) (c : CreateCall) : Store × CreateCall :=
  let r1 := createStep st c
  let r2 := createStep r1.1 r1.2
  createStep r2.1 r2.2

/-- Two interleaved createUsername calls: the schedule lists which call
steps next (false = first call, true = second call). -/
def runRace (st : Store) (a b : CreateCall) :
    List Bool → Store × CreateCall × CreateCall
  | [] => (st, a, b)
  | false :: rest =>
    let r := createStep st a
    runRace r.1 r.2 b rest
  | true :: rest =>
    let r := createStep st b
    runRace r.1 a r.2 rest

/-- Error conditions the identity providers can throw during sign-in,
including the cancellation and in-progress conditions. -/
inductive AuthErrorCode
  | cancelled
  | inProgress
  | serviceUnavailable
  | other (code : String)
deriving Repr, DecidableEq

/-- Observable result of one sign-in attempt: the titles of the
user-visible alerts it showed, and whether the function itself wrote the
published user state. -/
structure SignInRun where
  alerts : List String
  setUserCalled : Bool
deriving Repr, DecidableEq

/-- signInWithGoogle (AuthContext.tsx lines 82 to 147) with its try body
abstracted to its outcome: the function never calls setUser itself, and
its catch logs the error and then always runs
Alert.alert(Sign In Error, ...), with no branch on the error code. -/
def signInWithGoogle (outcome : Except AuthErrorCode Unit) : SignInRun :=
  match outcome with
  | Except.ok _ => { alerts := [], setUserCalled := false }
  | Except.error _ => { alerts := ["Sign In Error"], setUserCalled := false }

/-- signInWithApple (AuthContext.tsx lines 149 to 225): an unsupported
device alerts Error and returns; otherwise the catch behaves exactly like
the Google one, alerting Sign In Error for every thrown error. -/
def signInWithApple (supported : Bool) (outcome : Except AuthErrorCode Unit) :
    SignInRun :=
  if !supported then { alerts := ["Error"], setUserCalled := false }
  else
    match outcome with
    | Except.ok _ => { alerts := [], setUserCalled := false }
    | Except.error _ => { alerts := ["Sign In Error"], setUserCalled := false }

/-- The member names defined on the value object the AuthContext provider
publishes (AuthContext.tsx lines 289 to 297 and AuthContextType lines 12
to 30); destructuring any other name from useAuth() yields undefined. -/
def authContextMembers : List String :=
  ["user", "loading", "signInWithGoogle", "signInWithApple", "signOut",
   "createUsername", "checkUsernameExists"]

/-- The screen call `createProfile(displayName, selectedAvatar)` through
the destructured context member (profile-creation.tsx lines 33 and 141):
were the member present the call would return the boolean success flag;
since the provider value defines no createProfile member the destructured
binding is undefined and invoking it throws a TypeError. -/
def callCreateProfile (displayName avatarId : String) : Except String Bool :=
  if authContextMembers.contains "createProfile" then
    Except.ok (decide (displayName.length ≥ 0 ∧ avatarId.length ≥ 0))
  else
    Except.error "TypeError: createProfile is not a function"

/-- Characters admitted by the username charset [a-z0-9_]. -/
def allowedChar (c : Char) : Bool :=
  (Char.ofNat 97 ≤ c && c ≤ Char.ofNat 122) ||
  (Char.ofNat 48 ≤ c && c ≤ Char.ofNat 57) || c == Char.ofNat 95

/-- The formatter of handleUsernameChange (profile-creation.tsx line 78):
`text.toLowerCase().replace(/[^a-z0-9_]/g, ...)` with the empty
replacement, that is lowercase then drop every disallowed character. -/
def formatUsername (s : String) : String :=
  String.mk (((jsToLower s).toList).filter allowedChar)

/-- Emptiness of the JS `displayName.trim()` check: a string is falsy
after trimming exactly when all its characters are whitespace. -/
def jsTrimEmpty (s : String) : Bool := s.toList.all fun c => c.isWhitespace

/-- Local validity of the submitted username per handleSubmit
(profile-creation.tsx lines 96 to 111): nonempty after trim, length at
least 3, and matching the anchored [a-z0-9_]+ pattern. -/
def validUsernameInput (displayName : String) : Bool :=
  !(jsTrimEmpty displayName) && decide (3 ≤ displayName.length) &&
    displayName.toList.all allowedChar

/-- Outcomes of one handleSubmit run on the profile-creation screen
(profile-creation.tsx lines 94 to 160). -/
inductive SubmitOutcome
  | invalidInput
  | usernameTaken
  | checkFailedAlert
  | createFailedLogged
  | unexpectedErrorAlert
  | navigatedHome
deriving Repr, DecidableEq

/-- handleSubmit with its awaited store calls abstracted to their
results: validate locally, run the final checkUsernameExists (finalCheck
is its outcome; an error is the catch branch that alerts and returns),
then run createProfile through the context member; success === true
navigates home, success === false was alerted inside the context, and a
thrown error is the catch that alerts an unexpected error. -/
def handleSubmit (displayName : String) (selectedAvatar : Option String)
    (finalCheck : Except Unit Bool) : SubmitOutcome :=
  if !(validUsernameInput displayName && selectedAvatar.isSome) then
    SubmitOutcome.invalidInput
  else
    match finalCheck with
    | Except.error _ => SubmitOutcome.checkFailedAlert
    | Except.ok true => SubmitOutcome.usernameTaken
    | Except.ok false =>
      match callCreateProfile displayName (selectedAvatar.getD "") with
      | Except.ok true => SubmitOutcome.navigatedHome
      | Except.ok false => SubmitOutcome.createFailedLogged
      | Except.error _ => SubmitOutcome.unexpectedErrorAlert

/-- State of the debounced username check (profile-creation.tsx lines 56
to 88): the pending lodash.debounce invocation as its fire deadline and
captured candidate, and the store lookups performed so far in order. -/
structure DebounceState where
  pending : Option (Nat × String)
  lookups : List String
deriving Repr, DecidableEq

/-- Fire a due pending invocation: the debounced function body runs
checkUsernameExists(name) only when name.length >= 3. -/
def firePending (st : DebounceState) : DebounceState :=
  match st.pending with
  | none => st
  | some (_, a) =>
    { pending := none,
      lookups := st.lookups ++ (if 3 ≤ a.length then [a] else []) }

/-- Let time advance to t: a pending invocation whose deadline has
passed fires before anything at time t happens. -/
def maybeFire (st : DebounceState) (t : Nat) : DebounceState :=
  match st.pending with
  | some (d, _) => if d ≤ t then firePending st else st
  | none => st

/-- One keystroke at time t with raw text: any pending invocation whose
500 time-unit deadline has passed fires first; then handleUsernameChange
formats the text and, only when the formatted value has length at least
3, calls debouncedCheckUsername, which cancels the pending timer and
schedules the new candidate at t + 500.  A keystroke whose formatted
value is shorter than 3 does not touch the pending timer. -/
def keystroke (st : DebounceState) (k : Nat × String) : DebounceState :=
  let st1 := maybeFire st k.1
  let f := formatUsername k.2
  if 3 ≤ f.length then { st1 with pending := some (k.1 + 500, f) }
  else st1

/-- Run a keystroke trace (time, raw text) from the idle state and then
let the input pause until the last pending invocation fires. -/
def runKeystrokes (ks : List (Nat × String)) : DebounceState :=
  firePending (ks.foldl keystroke { pending := none, lookups := [] })

/-- Keystroke times strictly increasing and each within 500 time-units of
the previous one, starting from time prev. -/
def inWindowFrom : Nat → List (Nat × String) → Bool
  | _, [] => true
  | prev, k :: rest => (prev < k.1 && k.1 < prev + 500) && inWindowFrom k.1 rest

/-- Every keystroke in the trace formats to a candidate passing the local
length gate. -/
def allValidKeys (ks : List (Nat × String)) : Bool :=
  ks.all fun k => decide (3 ≤ (formatUsername k.2).length)

/-- The candidate of the last keystroke of the trace, with a default for
the empty trace. -/
def lastCand (cand : String) (ks : List (Nat × String)) : String :=
  ks.foldl (fun _ k => formatUsername k.2) cand

/-- A performed lookup passes the local format validation: length at
least 3 and charset [a-z0-9_]. -/
def lookupValidated (a : String) : Bool :=
  decide (3 ≤ a.length) && a.toList.all allowedChar

/-- C1: the guard classifies a published user as signed_in_complete
exactly when both the displayName field and the avatar field are set to
truthy values, and whenever either field is missing, null or empty the
classification is signed_in_incomplete, never signed_in_complete. -/
theorem complete_session_requires_both_fields (u : User) :
    (classifySession false (some u) = Session.signed_in_complete u.uid ↔
      truthy u.displayName = true ∧ truthy u.avatar = true) ∧
    ((truthy u.displayName = false ∨ truthy u.avatar = false) →
      classifySession false (some u) = Session.signed_in_incomplete u.uid ∧
        ∀ uid, classifySession false (some u) ≠ Session.signed_in_complete uid) := by
  by_cases h1 : truthy u.displayName <;> by_cases h2 : truthy u.avatar <;>
    simp [classifySession, h1, h2]

/-- C2: on every input the guard effect of AuthNavigationProvider decides
exactly what the decision table of the spec prescribes for the session
the same input classifies to. -/
theorem navDecide_matches_spec_table (loading : Bool) (user : Option User)
    (segments : List String) :
    navDecide loading true user segments =
      specDecide (classifySession loading user) segments := by
  cases loading with
  | true => simp [navDecide, specDecide, classifySession]
  | false =>
    cases user with
    | none => simp [navDecide, specDecide, classifySession]
    | some u =>
      by_cases h : (!truthy u.displayName || !truthy u.avatar) = true <;>
        simp [navDecide, specDecide, classifySession, h]

/-- The guard on an incomplete user reduces to the profile-creation
routing test. -/
theorem navDecide_incomplete (u : User) (segments : List String)
    (hc : (!truthy u.displayName || !truthy u.avatar) = true) :
    navDecide false true (some u) segments =
      if String.intercalate "/" segments ≠ "auth/profile-creation" then
        some Redirect.toProfileCreation
      else none := by
  simp [navDecide, hc]

/-- The guard on a complete user reduces to the auth-group test. -/
theorem navDecide_complete (u : User) (segments : List String)
    (hc : (!truthy u.displayName || !truthy u.avatar) = false) :
    navDecide false true (some u) segments =
      if segments.head? = some "auth" then some Redirect.toHome else none := by
  simp [navDecide, hc]

/-- C8: whenever the guard issues a redirect, evaluating it again with
the same session on the redirect target route yields no redirect, so
re-firing the effect with unchanged inputs cannot loop. -/
theorem navDecide_idempotent_after_redirect (loading navReady : Bool)
    (user : Option User) (segments : List String) (r : Redirect)
    (h : navDecide loading navReady user segments = some r) :
    navDecide loading navReady user (redirectSegments r) = none := by
  cases loading with
  | true => simp [navDecide] at h
  | false =>
  cases navReady with
  | false => simp [navDecide] at h
  | true =>
  cases user with
  | none =>
    by_cases hs : segments.head? = some "auth"
    · simp [navDecide, hs] at h
    · simp [navDecide, hs] at h
      subst h
      decide
  | some u =>
    by_cases hc : (!truthy u.displayName || !truthy u.avatar) = true
    · rw [navDecide_incomplete u segments hc] at h
      split_ifs at h
      simp only [Option.some.injEq] at h
      subst h
      rw [navDecide_incomplete u _ hc]
      decide
    · simp only [Bool.not_eq_true] at hc
      rw [navDecide_complete u segments hc] at h
      split_ifs at h
      simp only [Option.some.injEq] at h
      subst h
      rw [navDecide_complete u _ hc]
      decide

/-- Witness for C8: the guard redirects a signed-out user from the tabs
group to the login route, and on the login route it issues no further
redirect. -/
theorem navDecide_idempotent_after_redirect_witness :
    navDecide false true none ["auth", "login"] = none :=
  navDecide_idempotent_after_redirect false true none ["(tabs)"]
    Redirect.toLogin (by decide)

/-- Every user value reachable by handler updates from the initial null
user state carries no avatar field: no setUser call site of AuthProvider
or createUsername ever assigns one. -/
theorem runPublish_avatar_none (steps : List PublishStep) :
    ∀ u, runPublish steps = some u → u.avatar = none := by
  have aux : ∀ (l : List PublishStep) (s : Option User),
      (∀ u, s = some u → u.avatar = none) →
      ∀ u, l.foldl applyPublish s = some u → u.avatar = none := by
    intro l
    induction l with
    | nil => intro s hs u h; exact hs u h
    | cons step rest ih =>
      intro s hs u h
      refine ih (applyPublish s step) ?_ u h
      intro v hv
      cases step with
      | authNull => simp [applyPublish] at hv
      | fetchResolved fu fetched =>
        simp only [applyPublish, Option.some.injEq] at hv
        rw [← hv]
      | usernameCreated nm =>
        cases s with
        | none => simp [applyPublish] at hv
        | some c =>
          simp only [applyPublish, Option.map_some', Option.some.injEq] at hv
          rw [← hv]
          exact hs c rfl
  intro u h
  refine aux steps none ?_ u h
  intro u h
  simp at h

/-- C7: every user the auth provider publishes has avatar none, so the
completeness test of the guard fails for every signed-in user and the
redirect-to-home branch can never fire. -/
theorem published_avatar_always_none (steps : List PublishStep) (u : User)
    (h : runPublish steps = some u) :
    u.avatar = none ∧
    (truthy u.displayName && truthy u.avatar) = false ∧
    ∀ segments, navDecide false true (some u) segments ≠ some Redirect.toHome := by
  have ha := runPublish_avatar_none steps u h
  have hc : (!truthy u.displayName || !truthy u.avatar) = true := by
    rw [ha]
    simp [truthy]
  refine ⟨ha, ?_, ?_⟩
  · rw [ha]
    simp [truthy]
  · intro segments
    rw [navDecide_incomplete u segments hc]
    split_ifs <;> simp

/-- Witness for C7 at the published user of a resolved first sign-in. -/
theorem published_avatar_always_none_witness :
    (⟨"user-1", some "Alice", none, some "alice"⟩ : User).avatar = none ∧
    (truthy (⟨"user-1", some "Alice", none, some "alice"⟩ : User).displayName &&
     truthy (⟨"user-1", some "Alice", none, some "alice"⟩ : User).avatar) = false ∧
    ∀ segments,
      navDecide false true (some ⟨"user-1", some "Alice", none, some "alice"⟩) segments ≠
        some Redirect.toHome :=
  published_avatar_always_none
    [PublishStep.fetchResolved ⟨"user-1", some "Alice"⟩ (some (some "alice"))]
    ⟨"user-1", some "Alice", none, some "alice"⟩ rfl

/-- C4 counterexample: the identity event for user-1 starts a profile
fetch, a sign-out (null) event then lands and publishes signed_out, and
when the stale fetch later resolves its setUser overwrites signed_out
with the old identity: the final published session is
signed_in_incomplete for user-1 although the most recent event was the
null sign-out. -/
theorem stale_fetch_overwrites_signed_out :
    runPublish [PublishStep.authNull,
        PublishStep.fetchResolved ⟨"user-1", some "Alice"⟩ (some (some "alice"))] =
      some ⟨"user-1", some "Alice", none, some "alice"⟩ ∧
    classifySession false
        (runPublish [PublishStep.authNull,
          PublishStep.fetchResolved ⟨"user-1", some "Alice"⟩ (some (some "alice"))]) =
      Session.signed_in_incomplete "user-1" := by
  exact ⟨rfl, by decide⟩

/-- C4 amended: processing the null event sets the published user to null
at once, but the handler resumption of an earlier fetch carries no
staleness check, so on completion it unconditionally publishes the old
identity over whatever state is current: the published session tracks the
most recently completed handler update, not the most recently received
event. -/
theorem authNull_immediate_and_fetch_unconditional (s : Option User)
    (fu : FirebaseUser) (fetched : Option (Option String)) :
    applyPublish s PublishStep.authNull = none ∧
    applyPublish none (PublishStep.fetchResolved fu fetched) =
      some ⟨fu.uid, fu.displayName, none, fetched.bind id⟩ :=
  ⟨rfl, rfl⟩

/-- C3 counterexample: two createUsername("foo") calls from different
sessions, interleaved check-check-write-write on an empty store, both
return true, and the second write silently overwrites the reservation of
the first: the write is a plain batch set, not an atomic create-if-absent
that would fail with AlreadyExists. -/
theorem concurrent_createUsername_both_succeed :
    runRace ⟨[], [], [], []⟩ ⟨"uidA", "foo", true, CreatePc.start, none⟩
        ⟨"uidB", "foo", true, CreatePc.start, none⟩ [false, true, false, true] =
      (⟨[("foo", "uidB")], [("uidB", "foo"), ("uidA", "foo")], [], []⟩,
       ⟨"uidA", "foo", true, CreatePc.done true, none⟩,
       ⟨"uidB", "foo", true, CreatePc.done true, none⟩) := by
  decide

/-- C3 amended: createUsername is conditioned on non-existence only at
the pre-write check, not at write time: when the lowercased username is
already reserved at check time the call fails with a Username taken alert
and writes nothing, but the write itself is an unconditional set, so a
reservation that appears between check and write is overwritten and two
near-simultaneous calls can both succeed. -/
theorem createUsername_fails_when_reserved_at_check (st : Store)
    (uid uname : String)
    (hres : (lookupDoc st.usernames (jsToLower uname)).isSome = true)
    (hread : jsToLower uname ∉ st.failingReads) :
    (runCreateUsername st ⟨uid, uname, true, CreatePc.start, none⟩).2.pc =
        CreatePc.done false ∧
    (runCreateUsername st ⟨uid, uname, true, CreatePc.start, none⟩).1 = st ∧
    (runCreateUsername st ⟨uid, uname, true, CreatePc.start, none⟩).2.alert =
        some "Username taken" := by
  have hck : checkUsernameExists st uname = true := by
    simp [checkUsernameExists, hread, hres]
  simp [runCreateUsername, createStep, hck]

/-- Witness for the amended C3 on a store already holding the
reservation. -/
theorem createUsername_fails_when_reserved_at_check_witness :
    (runCreateUsername ⟨[("foo", "uidX")], [], [], []⟩
        ⟨"uidA", "foo", true, CreatePc.start, none⟩).2.pc = CreatePc.done false ∧
    (runCreateUsername ⟨[("foo", "uidX")], [], [], []⟩
        ⟨"uidA", "foo", true, CreatePc.start, none⟩).1 =
      ⟨[("foo", "uidX")], [], [], []⟩ ∧
    (runCreateUsername ⟨[("foo", "uidX")], [], [], []⟩
        ⟨"uidA", "foo", true, CreatePc.start, none⟩).2.alert =
      some "Username taken" :=
  createUsername_fails_when_reserved_at_check ⟨[("foo", "uidX")], [], [], []⟩
    "uidA" "foo" (by decide) (by decide)

/-- C5 counterexample: the store read of the authoritative pre-write
uniqueness check fails, checkUsernameExists swallows the error and
reports the username as available, and createUsername proceeds to write
and returns true: the profile is created and no error is surfaced,
although a store operation during profile creation failed. -/
theorem read_error_swallowed_profile_created :
    runCreateUsername ⟨[], [], ["foo"], []⟩
        ⟨"uidA", "foo", true, CreatePc.start, none⟩ =
      (⟨[("foo", "uidA")], [("uidA", "foo")], ["foo"], []⟩,
       ⟨"uidA", "foo", true, CreatePc.done true, none⟩) := by
  decide

/-- C5 amended: a failure of the profile write itself is surfaced: the
call returns false, writes nothing and alerts the user, and the session
cannot advance; but a store error during the pre-write uniqueness check
is swallowed, checkUsernameExists returning false as if the name were
available, so creation proceeds without surfacing that error. -/
theorem write_failure_surfaced_check_error_swallowed (st : Store)
    (uid uname : String)
    (hw : jsToLower uname ∈ st.failingWrites)
    (hck : checkUsernameExists st uname = false) :
    (runCreateUsername st ⟨uid, uname, true, CreatePc.start, none⟩).2.pc =
        CreatePc.done false ∧
    (runCreateUsername st ⟨uid, uname, true, CreatePc.start, none⟩).1 = st ∧
    (runCreateUsername st ⟨uid, uname, true, CreatePc.start, none⟩).2.alert =
        some "Failed to create username. Please try again." ∧
    ∀ (st2 : Store) (u2 : String), jsToLower u2 ∈ st2.failingReads →
      checkUsernameExists st2 u2 = false := by
  refine ⟨?_, ?_, ?_, ?_⟩ <;>
    first
      | simp [runCreateUsername, createStep, hck, hw]
      | (intro st2 u2 hr; simp [checkUsernameExists, hr])

/-- Witness for the amended C5 on a store whose commit of the foo
reservation rejects. -/
theorem write_failure_surfaced_check_error_swallowed_witness :
    (runCreateUsername ⟨[], [], [], ["foo"]⟩
        ⟨"uidA", "foo", true, CreatePc.start, none⟩).2.pc = CreatePc.done false ∧
    (runCreateUsername ⟨[], [], [], ["foo"]⟩
        ⟨"uidA", "foo", true, CreatePc.start, none⟩).1 = ⟨[], [], [], ["foo"]⟩ ∧
    (runCreateUsername ⟨[], [], [], ["foo"]⟩
        ⟨"uidA", "foo", true, CreatePc.start, none⟩).2.alert =
      some "Failed to create username. Please try again." ∧
    ∀ (st2 : Store) (u2 : String), jsToLower u2 ∈ st2.failingReads →
      checkUsernameExists st2 u2 = false :=
  write_failure_surfaced_check_error_swallowed ⟨[], [], [], ["foo"]⟩
    "uidA" "foo" (by decide) (by decide)

/-- Every formatted username consists of allowed characters only: the
formatter is the filter on the charset. -/
theorem formatUsername_all_allowed (s : String) :
    (formatUsername s).toList.all allowedChar = true := by
  show ((jsToLower s).toList.filter allowedChar).all allowedChar = true
  simp only [List.all_eq_true]
  intro c hc
  exact (List.mem_filter.mp hc).2

/-- firePending keeps the performed lookups validated and leaves no
pending invocation. -/
theorem firePending_ok (st : DebounceState)
    (hp : ∀ d a, st.pending = some (d, a) → a.toList.all allowedChar = true)
    (hl : st.lookups.all lookupValidated = true) :
    (firePending st).lookups.all lookupValidated = true ∧
      (firePending st).pending = none := by
  cases hpend : st.pending with
  | none =>
    constructor
    · simpa [firePending, hpend] using hl
    · simp [firePending, hpend]
  | some da =>
    obtain ⟨d, a⟩ := da
    have ha := hp d a hpend
    constructor
    · simp only [firePending, hpend, List.all_append, Bool.and_eq_true]
      refine ⟨hl, ?_⟩
      split_ifs with h3
      · simp only [List.all_cons, List.all_nil, Bool.and_true, lookupValidated,
          Bool.and_eq_true, decide_eq_true_eq]
        exact ⟨h3, ha⟩
      · simp
    · simp [firePending, hpend]

/-- maybeFire keeps both debounce invariants: validated lookups and a
pending candidate drawn from the formatter. -/
theorem maybeFire_ok (st : DebounceState) (t : Nat)
    (hp : ∀ d a, st.pending = some (d, a) → a.toList.all allowedChar = true)
    (hl : st.lookups.all lookupValidated = true) :
    (maybeFire st t).lookups.all lookupValidated = true ∧
      ∀ d a, (maybeFire st t).pending = some (d, a) →
        a.toList.all allowedChar = true := by
  cases hpend : st.pending with
  | none =>
    have hred : maybeFire st t = st := by
      unfold maybeFire
      rw [hpend]
    rw [hred]
    exact ⟨hl, hp⟩
  | some da =>
    obtain ⟨d0, a0⟩ := da
    have hred : maybeFire st t = if d0 ≤ t then firePending st else st := by
      unfold maybeFire
      rw [hpend]
    rw [hred]
    split_ifs with hd
    · have hf := firePending_ok st hp hl
      refine ⟨hf.1, ?_⟩
      intro d a h
      rw [hf.2] at h
      cases h
    · exact ⟨hl, hp⟩

/-- A keystroke keeps both debounce invariants. -/
theorem keystroke_ok (st : DebounceState) (k : Nat × String)
    (hp : ∀ d a, st.pending = some (d, a) → a.toList.all allowedChar = true)
    (hl : st.lookups.all lookupValidated = true) :
    (keystroke st k).lookups.all lookupValidated = true ∧
      ∀ d a, (keystroke st k).pending = some (d, a) →
        a.toList.all allowedChar = true := by
  have hm := maybeFire_ok st k.1 hp hl
  simp only [keystroke]
  split_ifs with hf
  · refine ⟨hm.1, ?_⟩
    intro d a h
    simp only [Prod.mk.injEq, Option.some.injEq] at h
    rw [← h.2]
    exact formatUsername_all_allowed k.2
  · exact hm

/-- A whole keystroke trace keeps both debounce invariants. -/
theorem debounce_inv (ks : List (Nat × String)) :
    ∀ st : DebounceState,
      (∀ d a, st.pending = some (d, a) → a.toList.all allowedChar = true) →
      st.lookups.all lookupValidated = true →
      ((ks.foldl keystroke st).lookups.all lookupValidated = true ∧
        ∀ d a, (ks.foldl keystroke st).pending = some (d, a) →
          a.toList.all allowedChar = true) := by
  induction ks with
  | nil => intro st hp hl; exact ⟨hl, hp⟩
  | cons k rest ih =>
    intro st hp hl
    have hk := keystroke_ok st k hp hl
    exact ih (keystroke st k) hk.2 hk.1

/-- Inside one pause window, a trace of valid keystrokes starting from a
freshly scheduled candidate never fires early, and the final flush looks
up exactly the last candidate. -/
theorem debounce_window_aux (ks : List (Nat × String)) :
    ∀ (prev : Nat) (cand : String), inWindowFrom prev ks = true →
      allValidKeys ks = true → 3 ≤ cand.length →
      (firePending (ks.foldl keystroke ⟨some (prev + 500, cand), []⟩)).lookups =
        [lastCand cand ks] := by
  induction ks with
  | nil =>
    intro prev cand _ _ hc
    simp [firePending, lastCand, hc]
  | cons k rest ih =>
    intro prev cand hw hv hc
    rw [show inWindowFrom prev (k :: rest) =
        ((decide (prev < k.1) && decide (k.1 < prev + 500)) &&
          inWindowFrom k.1 rest) from rfl,
      Bool.and_eq_true, Bool.and_eq_true] at hw
    obtain ⟨⟨-, h2⟩, h3⟩ := hw
    have h2a := of_decide_eq_true h2
    rw [show allValidKeys (k :: rest) =
        (decide (3 ≤ (formatUsername k.2).length) && allValidKeys rest) from rfl,
      Bool.and_eq_true] at hv
    obtain ⟨hvh, hvt⟩ := hv
    have hvha := of_decide_eq_true hvh
    have hstep : keystroke ⟨some (prev + 500, cand), []⟩ k =
        ⟨some (k.1 + 500, formatUsername k.2), []⟩ := by
      unfold keystroke maybeFire
      have hnot : ¬(prev + 500 ≤ k.1) := by omega
      simp [hnot, hvha]
    rw [List.foldl_cons, hstep,
      show lastCand cand (k :: rest) = lastCand (formatUsername k.2) rest from rfl]
    exact ih k.1 (formatUsername k.2) h3 hvt hvha

/-- C9 counterexample: a Google sign-in attempt that ends with the
cancellation condition shows the user-visible Sign In Error alert: the
catch clause alerts on every error without branching on its code, so the
error is not absorbed silently.  The session is indeed left unchanged. -/
theorem cancelled_signin_shows_alert :
    signInWithGoogle (Except.error AuthErrorCode.cancelled) =
      ⟨["Sign In Error"], false⟩ ∧
    signInWithApple true (Except.error AuthErrorCode.cancelled) =
      ⟨["Sign In Error"], false⟩ ∧
    (signInWithGoogle (Except.error AuthErrorCode.cancelled)).alerts ≠ [] :=
  ⟨rfl, rfl, by decide⟩

/-- C9 amended: when a sign-in attempt ends with Cancelled or InProgress
the session is left unchanged, the handler never writing the user state,
but the error is not silent: both sign-in functions run the same catch
clause, which shows a user-visible Sign In Error alert for every error
code including Cancelled and InProgress. -/
theorem signin_errors_alert_uniformly (e : AuthErrorCode) :
    signInWithGoogle (Except.error e) = ⟨["Sign In Error"], false⟩ ∧
    signInWithApple true (Except.error e) = ⟨["Sign In Error"], false⟩ :=
  ⟨rfl, rfl⟩

/-- C6: the provider value defines no createProfile member, so the
destructured binding the screen invokes is undefined: no handleSubmit run
ever reaches the home navigation, and a submission that passes local
validation and the final availability check ends in the unexpected-error
alert of the catch around the createProfile call. -/
theorem createProfile_call_never_navigates_home (displayName : String)
    (selectedAvatar : Option String) (finalCheck : Except Unit Bool) :
    authContextMembers.contains "createProfile" = false ∧
    handleSubmit displayName selectedAvatar finalCheck ≠
      SubmitOutcome.navigatedHome ∧
    handleSubmit "reader_1" (some "explorer") (Except.ok false) =
      SubmitOutcome.unexpectedErrorAlert := by
  have hm : authContextMembers.contains "createProfile" = false := by decide
  refine ⟨hm, ?_, by decide⟩
  unfold handleSubmit
  split_ifs
  · simp
  · rcases finalCheck with e | b
    · simp
    · cases b
      · have hm2 : "createProfile" ∉ authContextMembers := by decide
        simp [callCreateProfile, hm2]
      · simp

/-- C10 counterexample: the user types abc at time 0 and deletes to ab at
time 100, within the 500 time-unit window.  The second keystroke fails
the length gate, so handleUsernameChange never calls the debounced
function and the pending check for abc is not cancelled: the flush
performs one lookup for abc, although the latest candidate is ab, which
does not even pass local format validation. -/
theorem stale_debounce_fires_for_old_candidate :
    (runKeystrokes [(0, "abc"), (100, "ab")]).lookups = ["abc"] ∧
    formatUsername "ab" = "ab" ∧
    ¬(3 ≤ (formatUsername "ab").length) ∧
    ("abc" : String) ≠ "ab" := by
  decide

/-- C10 amended: every store lookup the debounced check performs is for a
candidate passing local format validation (length at least 3, charset
[a-z0-9_]); and when every keystroke of a pause window formats to a valid
candidate, each keystroke cancels the pending check and exactly one
lookup fires, for the latest candidate; typing ab then abc within the
window likewise yields exactly one lookup, for abc.  Only a keystroke
failing the length gate after a valid one leaves the stale pending check
alive. -/
theorem debounce_lookups_validated_and_latest :
    (∀ ks : List (Nat × String),
      (runKeystrokes ks).lookups.all lookupValidated = true) ∧
    (∀ (t : Nat) (r : String) (ks : List (Nat × String)),
      inWindowFrom t ks = true → allValidKeys ((t, r) :: ks) = true →
      (runKeystrokes ((t, r) :: ks)).lookups = [lastCand (formatUsername r) ks]) ∧
    (runKeystrokes [(0, "ab"), (100, "abc")]).lookups = ["abc"] := by
  refine ⟨?_, ?_, by decide⟩
  · intro ks
    have hinit : ∀ d a, (⟨none, []⟩ : DebounceState).pending = some (d, a) →
        a.toList.all allowedChar = true := by
      intro d a h
      cases h
    have hfold := debounce_inv ks ⟨none, []⟩ hinit rfl
    exact (firePending_ok _ hfold.2 hfold.1).1
  · intro t r ks hw hv
    rw [show allValidKeys ((t, r) :: ks) =
        (decide (3 ≤ (formatUsername r).length) && allValidKeys ks) from rfl,
      Bool.and_eq_true] at hv
    obtain ⟨hvh, hvt⟩ := hv
    have hvha := of_decide_eq_true hvh
    have hstep : keystroke ⟨none, []⟩ (t, r) =
        ⟨some (t + 500, formatUsername r), []⟩ := by
      unfold keystroke maybeFire
      simp [hvha]
    unfold runKeystrokes
    rw [List.foldl_cons, hstep]
    exact debounce_window_aux ks t (formatUsername r) hw hvt hvha

end Kitab
